import Mathlib

/-!
A shallow embedding of the `emojimix` chat-bot plugin (`main.py`) and proofs
of its specified properties.

Modelling conventions:
* A Python `str` is a Lean `String`; Python `ord c` is `Char.toNat`.
* The external `emoji` library (`emoji.emoji_list`, `emoji.is_emoji`) and the
  HTTP client (`httpx`) are oracles passed in as function parameters.
  `emoji_list` may raise (`Except.error`), `is_emoji` may raise, and a network
  probe either raises a request error (`Except.error ()`) or returns an HTTP
  status code (`Except.ok code`).
* Stateful network interaction is made observable: each resolver-level
  function returns, besides its result, the ordered list of URLs it actually
  probed (the network trace).  A function that performs no network call
  returns the empty trace.
* The configuration of the plugin is a Python dict; it is embedded as an
  association list from keys to tagged values.
-/

set_option autoImplicit false

namespace EmojiMix

/-- A dynamically-typed configuration value, as stored in the Python config
dict.  The float `request_timeout` is kept as a numerator/denominator pair;
its numeric value is never inspected by the logic of the plugin. -/
inductive ConfigValue where
  | intVal : Nat → ConfigValue
  | floatVal : Nat → Nat → ConfigValue
  | strVal : String → ConfigValue
  | listVal : List String → ConfigValue
  deriving DecidableEq, Repr

/-- The Python config dict, embedded as an association list. -/
abbrev ConfigDict := List (String × ConfigValue)

/-- The ordered catalog-date identifiers of the default configuration
(`date_codes` in `_load_config`). -/
def default_date_codes : List String :=
  ["20240204", "20250130", "20241023", "20241021", "20240715",
   "20240610", "20240530", "20240214", "20240206", "20231128",
   "20231113", "20230821", "20230818", "20230803", "20230426",
   "20230421", "20230418", "20230405", "20230301", "20230221",
   "20230216", "20230127", "20230126", "20221107", "20221101",
   "20220823", "20220815", "20220506", "20220406", "20220203",
   "20220110", "20211115", "20210831", "20210521", "20210218",
   "20201001"]

/-- The default composite-URL template (`base_url_template`). -/
def default_base_url_template : String :=
  "https://www.gstatic.com/android/keyboard/emojikitchen/{date_code}/{hex1}/{hex1}_{hex2}.png"

/-- The default single-emoji CDN base (`twemoji_cdn`). -/
def default_twemoji_cdn : String :=
  "https://cdn.jsdelivr.net/npm/twemoji@latest/assets/svg/"

/-- The default maximum number of emoji processed (`max_emoji_length`). -/
def default_max_emoji_length : Nat := 2

/-- Python `_load_config`: returns the built-in default configuration dict. -/
def load_config : ConfigDict :=
  [("emoji_size", .intVal 128),
   ("twemoji_cdn", .strVal default_twemoji_cdn),
   ("date_codes", .listVal default_date_codes),
   ("base_url_template", .strVal default_base_url_template),
   ("request_timeout", .floatVal 3 0),
   ("max_emoji_length", .intVal default_max_emoji_length)]

/-- The keys `_validate_config` requires, in the order it checks them. -/
def required_keys : List String := ["twemoji_cdn", "base_url_template", "date_codes"]

/-- Whether a config value is a Python `list` (the `isinstance` check). -/
def ConfigValue.isList : ConfigValue → Bool
  | .listVal _ => true
  | _ => false

/-- Python `_validate_config`: raises `ValueError` on the first missing required key,
then `TypeError` if `date_codes` is not a list.  Errors are embedded as
`Except.error` with the raised message. -/
def validate_config (cfg : ConfigDict) : Except String Unit :=
  match required_keys.find? (fun k => (cfg.lookup k).isNone) with
  | some k => .error ("配置缺失关键参数: " ++ k)
  | none =>
    match cfg.lookup "date_codes" with
    | some v => if v.isList then .ok () else .error "date_codes必须为列表类型"
    | none => .error "配置缺失关键参数: date_codes"

/-- Python `__init__`: load the default config, then validate it. -/
def plugin_init : Except String ConfigDict :=
  match validate_config load_config with
  | .error e => .error e
  | .ok _ => .ok load_config

/-- Python `_get_emoji_hex_code`: drop the two variation-selector codepoints
U+FE0E/U+FE0F, render each remaining codepoint as lowercase hex prefixed with
"u", and join with "-".  The Python original wraps this in a `try` returning
`None` on an exception; the pure computation cannot fail, so the embedded
function always returns `some`, mirroring that the `except` branch is a
safety net only. -/
def get_emoji_hex_code (emoji_char : String) : Option String :=
  let filtered_chars := emoji_char.data.filter (fun c => c ≠ '\uFE0E' ∧ c ≠ '\uFE0F')
  some (String.intercalate "-" (filtered_chars.map (fun c => "u" ++ String.mk (Nat.toDigits 16 c.toNat))))

/-- Python truthiness of an `Optional[str]`: `None` and the empty string are
falsy.  This is the `if not emoji1_hex or not emoji2_hex` test. -/
def falsyStr : Option String → Bool
  | none => true
  | some s => s = ""

/-- Python `str.format` as used on `base_url_template`: substitute the three named
placeholders.  (Hex codes and date codes never contain braces, so sequential
replacement coincides with the Python field substitution.) -/
def formatTemplate (tmpl date_code hex1 hex2 : String) : String :=
  ((tmpl.replace "{date_code}" date_code).replace "{hex1}" hex1).replace "{hex2}" hex2

/-- The outcome of one `client.head(url, follow_redirects=True)` call:
`Except.error ()` is an `httpx.RequestError`, `Except.ok n` an HTTP status. -/
abbrev Probe := String → Except Unit Nat

/-- Whether a probe of `url` reports HTTP 200 (a request error does not). -/
def isOk200 (probe : Probe) (url : String) : Bool :=
  match probe url with
  | .ok 200 => true
  | _ => false

/-- The inner `for url in url_candidates` loop of `_find_mixed_emoji_url`:
probe each candidate in order, return the first URL answering 200, treat any
other status or request error as "not this one".  The second component is
the list of URLs actually probed, in order. -/
def probeCandidates (probe : Probe) : List String → Option String × List String
  | [] => (none, [])
  | url :: rest =>
    if isOk200 probe url then (some url, [url])
    else
      let (r, t) := probeCandidates probe rest
      (r, url :: t)

/-- The `url_candidates` built for one `date_code`: the primary order
`hex1_hex2` first, then—only when the two emoji differ—the swapped order
`hex2_hex1`. -/
def dateCandidates (tmpl e1 e2 h1 h2 date_code : String) : List String :=
  formatTemplate tmpl date_code h1 h2 ::
    (if e1 ≠ e2 then [formatTemplate tmpl date_code h2 h1] else [])

/-- The outer `for date_code in self.config["date_codes"]` loop of
`_find_mixed_emoji_url`, with its early `return` on success. -/
def probeDates (probe : Probe) (tmpl e1 e2 h1 h2 : String) :
    List String → Option String × List String
  | [] => (none, [])
  | date_code :: rest =>
    match probeCandidates probe (dateCandidates tmpl e1 e2 h1 h2 date_code) with
    | (some url, t) => (some url, t)
    | (none, t) =>
      let (r, t2) := probeDates probe tmpl e1 e2 h1 h2 rest
      (r, t ++ t2)

/-- Python `_find_mixed_emoji_url`: encode both emoji; if either hex code is falsy
(`None` or empty), return `None` at once; otherwise probe dates × orderings
and return the first URL that answers 200.  The second component is the
network trace: every URL for which a HEAD probe was issued, in order. -/
def find_mixed_emoji_url (probe : Probe) (date_codes : List String) (tmpl : String)
    (emoji1 emoji2 : String) : Option String × List String :=
  let emoji1_hex := get_emoji_hex_code emoji1
  let emoji2_hex := get_emoji_hex_code emoji2
  if falsyStr emoji1_hex || falsyStr emoji2_hex then (none, [])
  else probeDates probe tmpl emoji1 emoji2 (emoji1_hex.getD "") (emoji2_hex.getD "") date_codes

/-- The whole ordered candidate sequence the resolver is specified to try:
for each date code in stored order, primary order then (for distinct emoji)
swapped order.  Used to state the probing-order property. -/
def allCandidates (tmpl e1 e2 h1 h2 : String) (date_codes : List String) : List String :=
  date_codes.flatMap (dateCandidates tmpl e1 e2 h1 h2)

/-- The oracle for `emoji.emoji_list`: the list of the `entry["emoji"]`
fields of the detected occurrences, or a raised exception. -/
abbrev EmojiListOracle := String → Except Unit (List String)

/-- The oracle for `emoji.is_emoji`, which may also raise. -/
abbrev IsEmojiOracle := String → Except Unit Bool

/-- The filtering pass of the set comprehension in `_extract_valid_emojis`:
keep the entries `emoji.is_emoji` accepts, propagating a raised exception. -/
def filterValidM (is_emoji : IsEmojiOracle) : List String → Except Unit (List String)
  | [] => .ok []
  | e :: es =>
    match is_emoji e with
    | .error u => .error u
    | .ok b =>
      match filterValidM is_emoji es with
      | .error u => .error u
      | .ok rest => .ok (if b then e :: rest else rest)

/-- The Python idiom `list(set(...))`: deduplication by character identity.  The set
iteration order is unspecified in Python; this embedding fixes the
deterministic choice that keeps the last occurrence of each character, which is
irrelevant to every property below. -/
def dedupList : List String → List String
  | [] => []
  | x :: xs => if x ∈ xs then dedupList xs else x :: dedupList xs

/-- The try-block body of `_extract_valid_emojis`. -/
def extract_valid_emojisE (emoji_list : EmojiListOracle) (is_emoji : IsEmojiOracle)
    (max_emoji_length : Nat) (text : String) : Except Unit (List String) :=
  match emoji_list text with
  | .error u => .error u
  | .ok emoji_entries =>
    match filterValidM is_emoji emoji_entries with
    | .error u => .error u
    | .ok valid_emojis => .ok ((dedupList valid_emojis).take max_emoji_length)

/-- Python `_extract_valid_emojis`: detect, filter, deduplicate, truncate; on any
exception in detection return the empty list. -/
def extract_valid_emojis (emoji_list : EmojiListOracle) (is_emoji : IsEmojiOracle)
    (max_emoji_length : Nat) (text : String) : List String :=
  match extract_valid_emojisE emoji_list is_emoji max_emoji_length text with
  | .ok r => r
  | .error _ => []

/-- Python `str.strip` with no argument: remove leading and trailing
whitespace characters.  (Whitespace here is the ASCII whitespace of
`Char.isWhitespace`; the exact whitespace set never matters below.) -/
def pyStrip (s : String) : String :=
  String.mk (((s.data.dropWhile Char.isWhitespace).reverse.dropWhile
    Char.isWhitespace).reverse)

/-- A reply handed back to the host framework: `event.plain_result` or
`event.image_result`. -/
inductive Reply where
  | plain : String → Reply
  | image : String → Reply
  deriving DecidableEq, Repr

/-- The usage-hint text of `_process_mix_request`. -/
def usageHintText : String :=
  "🤔 请提供恰好两个不同的Emoji来合成\n示例: `/emojimix 😊🐶` 或直接发送两个Emoji"

/-- The cannot-be-identical text of `_process_mix_request`. -/
def cannotBeIdenticalText : String := "😅 两个Emoji不能相同哦~"

/-- The no-composite-found text of `_process_mix_request`, naming both
input emoji. -/
def notFoundText (emoji1 emoji2 : String) : String :=
  "😟 抱歉，未找到" ++ emoji1 ++ "和" ++ emoji2 ++ "的混合Emoji\n" ++
    "可能原因: 这对组合不存在 或 输入的不是标准Emoji"

/-- Python `_process_mix_request`: usage hint unless exactly two emoji, identical
pair rejected before any resolution, otherwise resolve and reply with the
image or the not-found text.  Also returns the network trace. -/
def process_mix_request (probe : Probe) (date_codes : List String) (tmpl : String)
    (emojis : List String) : Reply × List String :=
  match emojis with
  | [emoji1, emoji2] =>
    if emoji1 = emoji2 then (.plain cannotBeIdenticalText, [])
    else
      match find_mixed_emoji_url probe date_codes tmpl emoji1 emoji2 with
      | (some mix_url, t) => (.image mix_url, t)
      | (none, t) => (.plain (notFoundText emoji1 emoji2), t)
  | _ => (.plain usageHintText, [])

/-- Python `emoji_mix_handler`: the `/emojimix` command entry point; strips the
input text, extracts emoji, and processes the mix request. -/
def emoji_mix_handler (probe : Probe) (emoji_list : EmojiListOracle) (is_emoji : IsEmojiOracle)
    (date_codes : List String) (tmpl : String) (max_emoji_length : Nat)
    (message_str : String) : Reply × List String :=
  let input_text := pyStrip message_str
  let emojis := extract_valid_emojis emoji_list is_emoji max_emoji_length input_text
  process_mix_request probe date_codes tmpl emojis

/-- Python `handle_double_emoji_message`: the passive listener; ignores stripped
messages longer than 10 characters, and triggers the mix flow only when
exactly two emoji are detected.  `none` means no reply is triggered. -/
def handle_double_emoji_message (probe : Probe) (emoji_list : EmojiListOracle)
    (is_emoji : IsEmojiOracle) (date_codes : List String) (tmpl : String)
    (max_emoji_length : Nat) (message_str : String) : Option (Reply × List String) :=
  let message_text := pyStrip message_str
  if message_text.length > 10 then none
  else
    let emojis := extract_valid_emojis emoji_list is_emoji max_emoji_length message_text
    if emojis.length = 2 then some (process_mix_request probe date_codes tmpl emojis)
    else none

/-! ### Helper lemmas -/

/-- Membership is preserved by deduplication. -/
theorem mem_dedupList {a : String} : ∀ {l : List String}, a ∈ dedupList l ↔ a ∈ l
  | [] => Iff.rfl
  | x :: xs => by
    by_cases hx : x ∈ xs
    · simp only [dedupList, if_pos hx, mem_dedupList (l := xs), List.mem_cons]
      constructor
      · exact Or.inr
      · rintro (rfl | h)
        · exact hx
        · exact h
    · simp [dedupList, if_neg hx, mem_dedupList (l := xs)]

/-- Deduplication yields a list without duplicates. -/
theorem nodup_dedupList : ∀ l : List String, (dedupList l).Nodup
  | [] => List.nodup_nil
  | x :: xs => by
    by_cases hx : x ∈ xs
    · simpa [dedupList, if_pos hx] using nodup_dedupList xs
    · simp only [dedupList, if_neg hx]
      exact List.nodup_cons.mpr ⟨fun hmem => hx (mem_dedupList.mp hmem), nodup_dedupList xs⟩

/-- The inner probe loop finds exactly the first candidate that answers 200,
probing every candidate before it (and nothing after it); when no candidate
answers 200 it probes the whole list. -/
theorem probeCandidates_spec (probe : Probe) (l : List String) :
    probeCandidates probe l =
      match l.find? (isOk200 probe) with
      | some u => (some u, l.takeWhile (fun x => !isOk200 probe x) ++ [u])
      | none => (none, l) := by
  induction l with
  | nil => rfl
  | cons url rest ih =>
    cases h : isOk200 probe url with
    | true =>
      rw [List.find?_cons_of_pos _ h]
      simp [probeCandidates, h, List.takeWhile_cons]
    | false =>
      rw [List.find?_cons_of_neg _ (by simp [h])]
      simp only [probeCandidates, h, Bool.false_eq_true, if_false]
      rw [ih]
      cases hf : List.find? (isOk200 probe) rest <;>
        simp [List.takeWhile_cons, h, hf]

/-- Decomposing the probe loop over an appended candidate list. -/
theorem probeCandidates_append (probe : Probe) (a b : List String) :
    probeCandidates probe (a ++ b) =
      match probeCandidates probe a with
      | (some u, t) => (some u, t)
      | (none, t) => ((probeCandidates probe b).1, t ++ (probeCandidates probe b).2) := by
  induction a with
  | nil => simp [probeCandidates]
  | cons url a ih =>
    cases h : isOk200 probe url with
    | true => simp [probeCandidates, h]
    | false =>
      simp only [List.cons_append, probeCandidates, h, Bool.false_eq_true, if_false,
        List.append_eq]
      rw [ih]
      rcases hpa : probeCandidates probe a with ⟨r, t⟩
      cases r <;> simp [hpa]

/-- The nested date × ordering loop of the resolver is the linear probe loop
over the flattened, spec-ordered candidate sequence. -/
theorem probeDates_eq (probe : Probe) (tmpl e1 e2 h1 h2 : String) (ds : List String) :
    probeDates probe tmpl e1 e2 h1 h2 ds =
      probeCandidates probe (allCandidates tmpl e1 e2 h1 h2 ds) := by
  induction ds with
  | nil => rfl
  | cons d ds ih =>
    rw [allCandidates, List.flatMap_cons, probeCandidates_append]
    rw [allCandidates] at ih
    simp only [probeDates]
    rcases hpc : probeCandidates probe (dateCandidates tmpl e1 e2 h1 h2 d) with ⟨r, t⟩
    cases r <;> simp [ih]

/-- When either hex encoding is falsy the resolver answers at once, with an
empty network trace. -/
theorem find_mixed_emoji_url_falsy (probe : Probe) (date_codes : List String)
    (tmpl emoji1 emoji2 : String)
    (h : falsyStr (get_emoji_hex_code emoji1) = true ∨
         falsyStr (get_emoji_hex_code emoji2) = true) :
    find_mixed_emoji_url probe date_codes tmpl emoji1 emoji2 = (none, []) := by
  unfold find_mixed_emoji_url
  rcases h with h | h <;> simp [h]

/-- Filtering variation selectors out of a string made of variation selectors
alone leaves nothing. -/
theorem filter_vs_eq_nil {cs : List Char}
    (hvs : ∀ c ∈ cs, c = '\uFE0E' ∨ c = '\uFE0F') :
    cs.filter (fun c => c ≠ '\uFE0E' ∧ c ≠ '\uFE0F') = [] := by
  rw [List.filter_eq_nil_iff]
  intro c hc
  rcases hvs c hc with rfl | rfl <;> simp

/-- The hex encoder returns the empty hex string (not the error signal) on a
string made of variation selectors alone. -/
theorem get_emoji_hex_code_vs_only (s : String)
    (hvs : ∀ c ∈ s.data, c = '\uFE0E' ∨ c = '\uFE0F') :
    get_emoji_hex_code s = some "" := by
  unfold get_emoji_hex_code
  rw [filter_vs_eq_nil hvs]
  rfl

/-- A successful extraction pass is a deduplicated, truncated list. -/
theorem extract_valid_emojisE_ok {el : EmojiListOracle} {ie : IsEmojiOracle}
    {m : Nat} {text : String} {r : List String}
    (h : extract_valid_emojisE el ie m text = .ok r) :
    ∃ v, r = (dedupList v).take m := by
  unfold extract_valid_emojisE at h
  cases hel : el text with
  | error u => simp [hel] at h
  | ok entries =>
    simp only [hel] at h
    cases hfv : filterValidM ie entries with
    | error u => simp [hfv] at h
    | ok valid =>
      simp only [hfv, Except.ok.injEq] at h
      exact ⟨valid, h.symm⟩

/-! ### The claims -/

/-- C3: for every emoji character string, the hex encoder output on that
string with one or more variation-selector codepoints (U+FE0E or U+FE0F)
appended is identical to its output on the same string without those
selectors. -/
theorem c3_hex_encoder_ignores_variation_selectors (e vs : String)
    (hne : vs ≠ "") (hvs : ∀ c ∈ vs.data, c = '\uFE0E' ∨ c = '\uFE0F') :
    get_emoji_hex_code (e ++ vs) = get_emoji_hex_code e := by
  unfold get_emoji_hex_code
  rw [String.data_append, List.filter_append, filter_vs_eq_nil hvs, List.append_nil]

/-- Witness for C3 at the concrete emoji 😊 with U+FE0F appended. -/
theorem c3_hex_encoder_ignores_variation_selectors_witness :
    ("\uFE0F" : String) ≠ "" ∧
    get_emoji_hex_code ("😊" ++ "\uFE0F") = get_emoji_hex_code "😊" :=
  ⟨by decide,
   c3_hex_encoder_ignores_variation_selectors "😊" "\uFE0F" (by decide) (by decide)⟩

/-- C6: for every pair of input emoji, if the hex encoder fails (a falsy
result) on either emoji, the composite URL resolver returns the not-found
result without issuing any network probe. -/
theorem c6_resolver_aborts_on_encoding_failure (probe : Probe)
    (date_codes : List String) (tmpl emoji1 emoji2 : String)
    (h : falsyStr (get_emoji_hex_code emoji1) = true ∨
         falsyStr (get_emoji_hex_code emoji2) = true) :
    find_mixed_emoji_url probe date_codes tmpl emoji1 emoji2 = (none, []) :=
  find_mixed_emoji_url_falsy probe date_codes tmpl emoji1 emoji2 h

/-- Witness for C6: a lone variation selector encodes falsily, so even an
always-200 network is never probed. -/
theorem c6_resolver_aborts_on_encoding_failure_witness :
    falsyStr (get_emoji_hex_code "\uFE0F") = true ∧
    find_mixed_emoji_url (fun _ => Except.ok 200) ["20240204"]
      default_base_url_template "\uFE0F" "😊" = (none, []) :=
  ⟨by decide,
   c6_resolver_aborts_on_encoding_failure (fun _ => Except.ok 200) ["20240204"]
     default_base_url_template "\uFE0F" "😊" (Or.inl (by decide))⟩

/-- C10: for every nonempty input string made solely of variation-selector
codepoints, the hex encoder returns the empty string (not the
exception-signal none), and the resolver given such a string as either
argument treats that empty string as an encoding failure, returning
not-found without issuing any network probe. -/
theorem c10_vs_only_string_yields_empty_hex (s : String) (probe : Probe)
    (date_codes : List String) (tmpl e : String)
    (hne : s ≠ "") (hvs : ∀ c ∈ s.data, c = '\uFE0E' ∨ c = '\uFE0F') :
    get_emoji_hex_code s = some "" ∧
    find_mixed_emoji_url probe date_codes tmpl s e = (none, []) ∧
    find_mixed_emoji_url probe date_codes tmpl e s = (none, []) := by
  have hx := get_emoji_hex_code_vs_only s hvs
  refine ⟨hx, ?_, ?_⟩
  · exact find_mixed_emoji_url_falsy _ _ _ _ _ (Or.inl (by rw [hx]; rfl))
  · exact find_mixed_emoji_url_falsy _ _ _ _ _ (Or.inr (by rw [hx]; rfl))

/-- Witness for C10 at the concrete one-selector string U+FE0F. -/
theorem c10_vs_only_string_yields_empty_hex_witness :
    get_emoji_hex_code "\uFE0F" = some "" ∧
    find_mixed_emoji_url (fun _ => Except.error ()) default_date_codes
      default_base_url_template "\uFE0F" "🐶" = (none, []) ∧
    find_mixed_emoji_url (fun _ => Except.error ()) default_date_codes
      default_base_url_template "🐶" "\uFE0F" = (none, []) :=
  c10_vs_only_string_yields_empty_hex "\uFE0F" (fun _ => Except.error ())
    default_date_codes default_base_url_template "🐶" (by decide) (by decide)

/-- C9: for every input text, if the emoji-detection capability raises an
exception—either the detection call itself or the per-entry validity
check—the extractor returns the empty list rather than propagating it. -/
theorem c9_extractor_absorbs_detection_failure (el : EmojiListOracle)
    (ie : IsEmojiOracle) (m : Nat) (text : String) (u : Unit) :
    (el text = .error u → extract_valid_emojis el ie m text = []) ∧
    (∀ entries, el text = .ok entries → filterValidM ie entries = .error u →
      extract_valid_emojis el ie m text = []) := by
  constructor
  · intro h
    unfold extract_valid_emojis extract_valid_emojisE
    rw [h]
  · intro entries hok hf
    unfold extract_valid_emojis extract_valid_emojisE
    simp only [hok, hf]

/-- Witness for C9: a detector that raises yields the empty extraction. -/
theorem c9_extractor_absorbs_detection_failure_witness :
    extract_valid_emojis (fun _ => Except.error ()) (fun _ => Except.ok true)
      default_max_emoji_length "😊🐶" = [] :=
  (c9_extractor_absorbs_detection_failure (fun _ => Except.error ())
    (fun _ => Except.ok true) default_max_emoji_length "😊🐶" ()).1 rfl

/-- C8: for every input text (and any behavior of the external detector),
the extractor returns a pairwise-distinct list whose length never exceeds
the configured maximum count, which is 2. -/
theorem c8_extractor_dedup_and_truncate (el : EmojiListOracle)
    (ie : IsEmojiOracle) (text : String) :
    (extract_valid_emojis el ie default_max_emoji_length text).Nodup ∧
    (extract_valid_emojis el ie default_max_emoji_length text).length ≤
      default_max_emoji_length ∧
    (extract_valid_emojis el ie default_max_emoji_length text).length ≤ 2 := by
  unfold extract_valid_emojis
  cases hE : extract_valid_emojisE el ie default_max_emoji_length text with
  | error u => simp
  | ok r =>
    obtain ⟨v, rfl⟩ := extract_valid_emojisE_ok hE
    refine ⟨List.Nodup.sublist (List.take_sublist _ _) (nodup_dedupList v), ?_, ?_⟩
    · rw [List.length_take]; exact min_le_left _ _
    · rw [List.length_take]; exact min_le_left _ _

/-- C4: for every message event, a list of exactly two identical emoji given
to the request handler yields the cannot-be-identical plain-text reply with
an empty network trace (zero network calls). -/
theorem c4_identical_pair_rejected_without_network (probe : Probe)
    (date_codes : List String) (tmpl : String) (e : String) :
    process_mix_request probe date_codes tmpl [e, e] =
      (.plain cannotBeIdenticalText, []) := by
  simp [process_mix_request]

/-- C5: the passive listener does not trigger on a message whose stripped
text is exactly 11 characters long, even when it contains two valid emoji,
and does trigger the mixing flow on a 10-character equivalent from which
exactly two emoji are extracted. -/
theorem c5_passive_listener_length_boundary (probe : Probe) (el : EmojiListOracle)
    (ie : IsEmojiOracle) (date_codes : List String) (tmpl : String)
    (raw1 raw2 : String)
    (h11 : (pyStrip raw1).length = 11)
    (hx1 : (extract_valid_emojis el ie default_max_emoji_length (pyStrip raw1)).length = 2)
    (h10 : (pyStrip raw2).length = 10)
    (hx2 : (extract_valid_emojis el ie default_max_emoji_length (pyStrip raw2)).length = 2) :
    handle_double_emoji_message probe el ie date_codes tmpl
      default_max_emoji_length raw1 = none ∧
    (handle_double_emoji_message probe el ie date_codes tmpl
      default_max_emoji_length raw2).isSome = true := by
  constructor
  · simp [handle_double_emoji_message, h11]
  · simp [handle_double_emoji_message, h10, hx2]

/-- Witness for C5: an 11-character and a 10-character message under a
detector that reports two distinct emoji for any text. -/
theorem c5_passive_listener_length_boundary_witness :
    handle_double_emoji_message (fun _ => Except.error ())
      (fun _ => Except.ok ["😊", "🐶"]) (fun _ => Except.ok true)
      ["20240204"] default_base_url_template default_max_emoji_length
      "abcdefghijk" = none ∧
    (handle_double_emoji_message (fun _ => Except.error ())
      (fun _ => Except.ok ["😊", "🐶"]) (fun _ => Except.ok true)
      ["20240204"] default_base_url_template default_max_emoji_length
      "abcdefghij").isSome = true :=
  c5_passive_listener_length_boundary (fun _ => Except.error ())
    (fun _ => Except.ok ["😊", "🐶"]) (fun _ => Except.ok true)
    ["20240204"] default_base_url_template "abcdefghijk" "abcdefghij"
    (by decide) (by decide) (by decide) (by decide)

/-- C7: validation fails exactly when a required key (CDN base, URL
template, date-code list) is missing or the date-code list is not a list
value; initialization with the built-in default configuration succeeds. -/
theorem c7_config_validation_iff :
    (∀ cfg : ConfigDict,
      validate_config cfg = .ok () ↔
        ((∀ k ∈ required_keys, (cfg.lookup k).isSome = true) ∧
          ∃ l, cfg.lookup "date_codes" = some (.listVal l))) ∧
    plugin_init = .ok load_config := by
  constructor
  · intro cfg
    unfold validate_config
    cases hf : required_keys.find? (fun k => (cfg.lookup k).isNone) with
    | some k =>
      have hk : (cfg.lookup k).isNone = true := by
        simpa using
          @List.find?_some String (fun k => (cfg.lookup k).isNone) k required_keys hf
      have hmem : k ∈ required_keys := List.mem_of_find?_eq_some hf
      rw [Option.isNone_iff_eq_none] at hk
      constructor
      · intro h; exact absurd h (by simp)
      · rintro ⟨hall, -⟩
        have hks := hall k hmem
        rw [hk] at hks
        exact absurd hks (by simp)
    | none =>
      have hall : ∀ k ∈ required_keys, (cfg.lookup k).isSome = true := by
        intro k hk
        have hne := List.find?_eq_none.mp hf k hk
        simp only [Option.isNone_iff_eq_none] at hne
        exact Option.ne_none_iff_isSome.mp hne
      cases hl : cfg.lookup "date_codes" with
      | none =>
        exact absurd (hall "date_codes" (by simp [required_keys]))
          (by simp [hl])
      | some v =>
        have hiff : (∃ l : List String,
              (some v : Option ConfigValue) = some (.listVal l)) ↔
            v.isList = true := by
          constructor
          · rintro ⟨l, hll⟩
            injection hll with hv2
            subst hv2
            rfl
          · intro hv
            cases v with
            | listVal l => exact ⟨l, rfl⟩
            | intVal n => cases hv
            | floatVal a b => cases hv
            | strVal t => cases hv
        dsimp only
        by_cases hv : v.isList = true
        · rw [if_pos hv]
          exact ⟨fun _ => ⟨hall, hiff.mpr hv⟩, fun _ => rfl⟩
        · rw [if_neg hv]
          constructor
          · intro h; exact absurd h (by simp)
          · rintro ⟨-, hex⟩; exact absurd (hiff.mp hex) hv
  · rfl

/-- C2: for distinct emoji with non-falsy hex codes, the resolver probes the
candidate sequence date-by-date in stored order, primary order before
swapped order within each date, returns the first candidate answering 200
having probed exactly the candidates up to and including it, and probes the
whole sequence before declaring failure. -/
theorem c2_resolver_probe_order (probe : Probe) (date_codes : List String)
    (tmpl e1 e2 h1 h2 : String)
    (he1 : get_emoji_hex_code e1 = some h1) (he2 : get_emoji_hex_code e2 = some h2)
    (hn1 : h1 ≠ "") (hn2 : h2 ≠ "") (hne : e1 ≠ e2) :
    allCandidates tmpl e1 e2 h1 h2 date_codes =
      date_codes.flatMap
        (fun d => [formatTemplate tmpl d h1 h2, formatTemplate tmpl d h2 h1]) ∧
    find_mixed_emoji_url probe date_codes tmpl e1 e2 =
      match (allCandidates tmpl e1 e2 h1 h2 date_codes).find? (isOk200 probe) with
      | some u =>
        (some u,
          (allCandidates tmpl e1 e2 h1 h2 date_codes).takeWhile
            (fun x => !isOk200 probe x) ++ [u])
      | none => (none, allCandidates tmpl e1 e2 h1 h2 date_codes) := by
  constructor
  · unfold allCandidates
    congr 1
    funext d
    simp [dateCandidates, hne]
  · simp only [find_mixed_emoji_url, he1, he2]
    simp only [falsyStr, hn1, decide_False, hn2, Bool.or_self, Bool.false_eq_true,
      if_false, Option.getD_some, decide_eq_true_eq]
    rw [probeDates_eq, probeCandidates_spec]

/-- Witness for C2 at 😊 and 🐶 over two date codes with an all-error
network. -/
theorem c2_resolver_probe_order_witness :
    get_emoji_hex_code "😊" = some "u1f60a" ∧
    get_emoji_hex_code "🐶" = some "u1f436" ∧
    find_mixed_emoji_url (fun _ => Except.error ()) ["20240204", "20250130"]
        default_base_url_template "😊" "🐶" =
      match (allCandidates default_base_url_template "😊" "🐶" "u1f60a" "u1f436"
          ["20240204", "20250130"]).find? (isOk200 (fun _ => Except.error ())) with
      | some u =>
        (some u,
          (allCandidates default_base_url_template "😊" "🐶" "u1f60a" "u1f436"
            ["20240204", "20250130"]).takeWhile
              (fun x => !isOk200 (fun _ => Except.error ()) x) ++ [u])
      | none =>
        (none,
          allCandidates default_base_url_template "😊" "🐶" "u1f60a" "u1f436"
            ["20240204", "20250130"]) :=
  ⟨rfl, rfl,
   (c2_resolver_probe_order (fun _ => Except.error ()) ["20240204", "20250130"]
      default_base_url_template "😊" "🐶" "u1f60a" "u1f436" rfl rfl
      (by decide) (by decide) (by decide)).2⟩

/-- C1 as stated is false on the code: the command flow on the input text
"😊😊" replies with the usage-hint text, not the cannot-be-identical text,
because extraction deduplicates the two identical occurrences down to a
single emoji before the count check.  The network trace is empty even under
an all-200 network. -/
theorem c1_counterexample_usage_hint_not_identical_reply :
    emoji_mix_handler (fun _ => Except.ok 200) (fun _ => Except.ok ["😊", "😊"])
      (fun _ => Except.ok true) default_date_codes default_base_url_template
      default_max_emoji_length "😊😊" = (.plain usageHintText, []) ∧
    (Reply.plain usageHintText ≠ Reply.plain cannotBeIdenticalText) :=
  ⟨rfl, by decide⟩

/-- C1 (amended): for every detector that reports the two occurrences of 😊
in the text "😊😊" and accepts 😊 as an emoji, the command flow yields the
usage-hint plain-text reply (deduplication leaves a single emoji, so the
exactly-two check fails) and no network probe is issued. -/
theorem c1_amended_double_emoji_usage_hint_no_probe (probe : Probe)
    (el : EmojiListOracle) (ie : IsEmojiOracle)
    (hel : el "😊😊" = .ok ["😊", "😊"]) (hie : ie "😊" = .ok true) :
    emoji_mix_handler probe el ie default_date_codes default_base_url_template
      default_max_emoji_length "😊😊" = (.plain usageHintText, []) := by
  have hps : pyStrip "😊😊" = "😊😊" := rfl
  simp only [emoji_mix_handler, hps, extract_valid_emojis, extract_valid_emojisE,
    hel, filterValidM, hie, dedupList, process_mix_request]
  rfl

/-- Witness for the amended C1 with a concrete detector and an all-error
network. -/
theorem c1_amended_double_emoji_usage_hint_no_probe_witness :
    emoji_mix_handler (fun _ => Except.error ()) (fun _ => Except.ok ["😊", "😊"])
      (fun _ => Except.ok true) default_date_codes default_base_url_template
      default_max_emoji_length "😊😊" = (.plain usageHintText, []) :=
  c1_amended_double_emoji_usage_hint_no_probe (fun _ => Except.error ())
    (fun _ => Except.ok ["😊", "😊"]) (fun _ => Except.ok true) rfl rfl

/-- Witness for C4 at the concrete pair 😊, 😊. -/
theorem c4_identical_pair_rejected_without_network_witness :
    process_mix_request (fun _ => Except.ok 200) ["20240204"]
      default_base_url_template ["😊", "😊"] =
      (.plain cannotBeIdenticalText, []) :=
  c4_identical_pair_rejected_without_network (fun _ => Except.ok 200)
    ["20240204"] default_base_url_template "😊"

/-- Witness for C7: the default configuration validates successfully. -/
theorem c7_config_validation_iff_witness :
    validate_config load_config = .ok () :=
  (c7_config_validation_iff.1 load_config).mpr
    ⟨by decide, default_date_codes, by decide⟩

/-- Witness for C8 at a detector reporting three distinct emoji. -/
theorem c8_extractor_dedup_and_truncate_witness :
    (extract_valid_emojis (fun _ => Except.ok ["😊", "🐶", "😀"])
      (fun _ => Except.ok true) default_max_emoji_length "😊🐶😀").Nodup ∧
    (extract_valid_emojis (fun _ => Except.ok ["😊", "🐶", "😀"])
      (fun _ => Except.ok true) default_max_emoji_length "😊🐶😀").length ≤
      default_max_emoji_length ∧
    (extract_valid_emojis (fun _ => Except.ok ["😊", "🐶", "😀"])
      (fun _ => Except.ok true) default_max_emoji_length "😊🐶😀").length ≤ 2 :=
  c8_extractor_dedup_and_truncate (fun _ => Except.ok ["😊", "🐶", "😀"])
    (fun _ => Except.ok true) "😊🐶😀"

end EmojiMix
